import Mathlib

/-
Shallow embedding of the survey-data validation tool (src/appnew.py).

The file models the in-memory validation core: a Dataset (already loaded
by the out-of-scope file loaders), a list of rules, the skip-condition
evaluator `get_skip_mask`, the column helpers `expand_range` /
`expand_prefix`, and the per-rule check blocks of the main validation
loop, producing the ordered list of violation records.

Modelling conventions:
 * pandas NaN / missing cells are `Value.vnull`; numeric cells are `ℚ`
   (`Value.vnum`); text cells are `Value.vstr`.
 * Integer-valued numeric cells model pandas integer-typed data and
   render without a decimal point under `astype(str)`; the exact float
   formatting of non-integral values is approximated by a truncated
   decimal expansion (no claim depends on it).  `str(NaN)` is `"nan"`.
 * Python code that can raise an unhandled exception (float() on a bad
   literal, tuple unpacking, list indexing, pandas comparisons between
   str and float) is modelled with `Except String`; a raised exception
   aborts the run exactly where the script would crash.
 * All string helpers are written over `List Char` with structural or
   fuel-based recursion so that concrete runs reduce in the kernel.
-/

set_option maxRecDepth 8000

namespace CheckDV

/-- Characters Python `str.strip` and the regex class treat as whitespace
(space, tab, newline, carriage return, form feed, vertical tab). -/
def isWsChar (c : Char) : Bool := c.toNat = 32 || (9 ≤ c.toNat && c.toNat ≤ 13)

/-- Python `str.strip()` on a character list. -/
def pyStripL (cs : List Char) : List Char :=
  ((cs.dropWhile isWsChar).reverse.dropWhile isWsChar).reverse

/-- Boolean prefix test on character lists (pattern first). -/
def startsWithL : List Char → List Char → Bool
  | [], _ => true
  | _ :: _, [] => false
  | p :: ps, c :: cs => p == c && startsWithL ps cs

/-- Case-insensitive prefix test: the pattern is given in lowercase and the
scanned text is lowered character by character. -/
def ciPrefixL : List Char → List Char → Bool
  | [], _ => true
  | _ :: _, [] => false
  | p :: ps, c :: cs => p == Char.toLower c && ciPrefixL ps cs

/-- Substring occurrence test, Python `pat in s`. -/
def isSubL (pat : List Char) : List Char → Bool
  | [] => startsWithL pat []
  | c :: cs => startsWithL pat (c :: cs) || isSubL pat cs

/-- Split at the first occurrence of `pat`, Python `s.split(pat, 1)` when the
separator is present; `none` when it is absent. -/
def splitFirstL (pat : List Char) : List Char → Option (List Char × List Char)
  | [] => if startsWithL pat [] then some ([], []) else none
  | c :: cs =>
    if startsWithL pat (c :: cs) then some ([], (c :: cs).drop pat.length)
    else match splitFirstL pat cs with
      | some (a, b) => some (c :: a, b)
      | none => none

/-- Split at every occurrence of `pat`, Python `s.split(pat)`; fuel-based so
the kernel reduces it (the wrapper passes enough fuel). -/
def splitAllAux (pat : List Char) : Nat → List Char → List Char → List (List Char)
  | 0, cur, s => [cur.reverse ++ s]
  | _ + 1, cur, [] => [cur.reverse]
  | f + 1, cur, c :: cs =>
    if startsWithL pat (c :: cs) then
      cur.reverse :: splitAllAux pat f [] ((c :: cs).drop pat.length)
    else splitAllAux pat f (c :: cur) cs

def splitAllL (pat s : List Char) : List (List Char) := splitAllAux pat (s.length + 1) [] s

/-- Replace every occurrence of `pat` by `rep`, scanning left to right
(Python `str.replace`). -/
def replaceAllAux (pat rep : List Char) : Nat → List Char → List Char
  | 0, s => s
  | _ + 1, [] => []
  | f + 1, c :: cs =>
    if startsWithL pat (c :: cs) then rep ++ replaceAllAux pat rep f ((c :: cs).drop pat.length)
    else c :: replaceAllAux pat rep f cs

def replaceAllL (pat rep s : List Char) : List Char := replaceAllAux pat rep (s.length + 1) s

def isWsHead : List Char → Bool
  | [] => false
  | c :: _ => isWsChar c

/-- Splitter for `re.split(r"\s+kw\s+", s, flags=re.IGNORECASE)` with a keyword
that starts and ends in a non-whitespace letter (here `or` / `and`): a match
is a whitespace run followed by the keyword (case-insensitively) followed by
at least one whitespace character, consuming the surrounding whitespace. -/
def splitKwAux (kw : List Char) : Nat → List Char → List Char → List (List Char)
  | 0, cur, s => [cur.reverse ++ s]
  | _ + 1, cur, [] => [cur.reverse]
  | f + 1, cur, c :: cs =>
    if isWsChar c then
      let after := (c :: cs).dropWhile isWsChar
      if ciPrefixL kw after && isWsHead (after.drop kw.length) then
        cur.reverse :: splitKwAux kw f [] ((after.drop kw.length).dropWhile isWsChar)
      else splitKwAux kw f (((c :: cs).takeWhile isWsChar).reverse ++ cur) after
    else splitKwAux kw f (c :: cur) cs

/-- String-level wrappers. -/
def pyStripStr (s : String) : String := String.mk (pyStripL s.data)

def toLowerStr (s : String) : String := String.mk (s.data.map Char.toLower)

def strStartsWith (s p : String) : Bool := startsWithL p.data s.data

def strEndsWith (s p : String) : Bool := startsWithL p.data.reverse s.data.reverse

def isSubstr (pat s : String) : Bool := isSubL pat.data s.data

def strDrop (s : String) (n : Nat) : String := String.mk (s.data.drop n)

def splitFirstStr (pat s : String) : Option (String × String) :=
  match splitFirstL pat.data s.data with
  | some (a, b) => some (String.mk a, String.mk b)
  | none => none

def splitAllStr (pat s : String) : List String := (splitAllL pat.data s.data).map String.mk

def replaceAllStr (pat rep s : String) : String := String.mk (replaceAllL pat.data rep.data s.data)

def splitKw (kw s : String) : List String :=
  (splitKwAux kw.data (s.data.length + 1) [] s.data).map String.mk

/-- First maximal non-whitespace run of an already stripped string
(`t.split()[0]` after `t = s.strip()`). -/
def firstWordStr (t : String) : String := String.mk (t.data.takeWhile (fun c => !isWsChar c))

def joinSep (sep : String) : List String → String
  | [] => ""
  | [x] => x
  | x :: xs => x ++ sep ++ joinSep sep xs

/-- Digit rendering for naturals (fuel-based so the kernel reduces it). -/
def digitChar (n : Nat) : Char := Char.ofNat (48 + n)

def natDigitsAux : Nat → Nat → List Char
  | 0, _ => []
  | f + 1, n => if n < 10 then [digitChar n] else natDigitsAux f (n / 10) ++ [digitChar (n % 10)]

def natStr (n : Nat) : String := String.mk (natDigitsAux (n + 1) n)

def intStr (z : Int) : String := if z < 0 then "-" ++ natStr z.natAbs else natStr z.natAbs

/-- Numeric value of a nonempty all-digit character list (Python `int`). -/
def digitsVal (cs : List Char) : Nat := cs.foldl (fun a c => a * 10 + (c.toNat - 48)) 0

/-- Python `float(s)`: optional sign, integer digits, optional decimal point
with fraction digits; anything else fails.  (Exponents, `inf`, `nan` and
digit underscores are not modelled; no rule text in the claims uses them.) -/
def parseFloat (s : String) : Option ℚ :=
  let cs := pyStripL s.data
  let sgncs : Bool × List Char :=
    match cs with
    | '+' :: t => (false, t)
    | '-' :: t => (true, t)
    | t => (false, t)
  let signed : ℚ → ℚ := fun q => if sgncs.1 then -q else q
  let ip := sgncs.2.takeWhile Char.isDigit
  let rest := sgncs.2.dropWhile Char.isDigit
  match rest with
  | [] => if ip.isEmpty then none else some (signed (digitsVal ip : ℚ))
  | '.' :: fp =>
    if fp.all Char.isDigit then
      if ip.isEmpty && fp.isEmpty then none
      else some (signed (mkRat (digitsVal (ip ++ fp)) (10 ^ fp.length)))
    else none
  | _ => none

/-- Cell values: pandas NaN / missing, numeric, or text. -/
inductive Value where
  | vnull : Value
  | vnum : ℚ → Value
  | vstr : String → Value
deriving DecidableEq, Repr

/-- Truncated decimal expansion of the fractional part (17 digits, like the
shortest-repr float printing for the simple decimals that occur in data). -/
def fracDigitsAux : Nat → ℚ → List Char
  | 0, _ => []
  | f + 1, q =>
    if q = 0 then []
    else
      let d : Int := Rat.floor (q * 10)
      digitChar d.toNat :: fracDigitsAux f (q * 10 - (d : ℚ))

/-- Python `str()` of a cell value as pandas `astype(str)` renders it:
integer-valued numerics render like integer-typed data (no decimal point). -/
def ratRepr (q : ℚ) : String :=
  if q.den = 1 then intStr q.num
  else
    let a : ℚ := if q < 0 then -q else q
    let ipart : Int := Rat.floor a
    (if q < 0 then "-" else "") ++ intStr ipart ++ "." ++
      String.mk (fracDigitsAux 17 (a - (ipart : ℚ)))

/-- Python `f"{x}"` of a float: integral floats carry a trailing `.0`. -/
def pyFloatRepr (q : ℚ) : String :=
  if q.den = 1 then intStr q.num ++ ".0" else ratRepr q

/-- pandas `astype(str)` of one cell (`str(nan) = "nan"`). -/
def pyStr : Value → String
  | .vnull => "nan"
  | .vnum q => ratRepr q
  | .vstr s => s

/-- pandas `pd.to_numeric(-, errors="coerce")` of one cell: NaN for anything
that does not parse as a number. -/
def toNumeric : Value → Option ℚ
  | .vnull => none
  | .vnum q => some q
  | .vstr s => parseFloat s

/-- Dataset rows: a RespondentID plus named cells; a column present in the
dataset but absent from a row's cell list reads as NaN. -/
structure Row where
  rid : String
  cells : List (String × Value)
deriving DecidableEq, Repr

def lookupCell (c : String) : List (String × Value) → Value
  | [] => .vnull
  | (k, v) :: t => if k == c then v else lookupCell c t

def getCell (r : Row) (c : String) : Value := lookupCell c r.cells

/-- The in-memory table: data column names (RespondentID kept as the
distinguished row key) and the ordered respondent rows. -/
structure Dataset where
  cols : List String
  rows : List Row
deriving DecidableEq, Repr

/-- One row of the uploaded rules table. -/
structure Rule where
  Question : String
  Check_Type : String
  Condition : String
deriving DecidableEq, Repr

/-- One output row of the validation report (`report.append({...})`). -/
structure ViolationRecord where
  RespondentID : Option String
  Question : String
  Check_Type : String
  Issue : String
deriving DecidableEq, Repr

/-- Operator list of `get_skip_mask`, tried in source order. -/
def OPS : List String := ["<=", ">=", "!=", "<>", "<", ">", "="]

def numOps : List String := ["<=", ">=", "<", ">"]

/-- Clause normalisation, `part.strip().replace("<>", "!=")`. -/
def normPart (part : String) : String := replaceAllStr "<>" "!=" (pyStripStr part)

/-- First operator of `OPS` occurring anywhere in the clause (the source scans
the list in order and tests substring containment). -/
def firstOpIn (p : String) : Option String := OPS.find? (fun op => isSubstr op p)

/-- Split of a clause at the first occurrence of the matched operator,
`part.split(op, 1)`; only reached when the operator occurs. -/
def splitFirst1 (op p : String) : String × String := (splitFirstStr op p).getD (p, "")

def clauseCol (op p : String) : String := pyStripStr (splitFirst1 op p).1

def clauseVal (op p : String) : String := pyStripStr (splitFirst1 op p).2

/-- Numeric comparison of a coerced cell against the parsed literal; a cell
that did not coerce (NaN) compares false under every operator. -/
def numPred (op : String) (x : ℚ) : Option ℚ → Bool
  | none => false
  | some c =>
    if op = "<=" then decide (c ≤ x)
    else if op = ">=" then decide (x ≤ c)
    else if op = "<" then decide (c < x)
    else if op = ">" then decide (x < c)
    else false

/-- One `and`-clause of `get_skip_mask`, folded over the running conjunction
mask exactly as the source updates `sub_mask`:
 * no operator in the clause: `sub_mask` is left unchanged;
 * unknown column: `sub_mask &= False`;
 * numeric operator: `float(val)` first (raising on a bad literal), then the
   column is coerced with `to_numeric(errors="coerce")` and compared;
 * `=` / `!=`: the column is rendered `astype(str).str.strip()` and compared
   with the literal as a string. -/
def evalClauseVec (ds : Dataset) (subMask : List Bool) (part0 : String) :
    Except String (List Bool) :=
  let part := normPart part0
  match firstOpIn part with
  | none => .ok subMask
  | some op =>
    let col := clauseCol op part
    let val := clauseVal op part
    if col ∈ ds.cols then
      if op ∈ numOps then
        match parseFloat val with
        | none => .error ("ValueError: could not convert string to float: '" ++ val ++ "'")
        | some x =>
          .ok (List.zipWith (fun m r => m && numPred op x (toNumeric (getCell r col)))
                subMask ds.rows)
      else if op = "=" then
        .ok (List.zipWith (fun m r => m && (pyStripStr (pyStr (getCell r col)) == val))
              subMask ds.rows)
      else
        .ok (List.zipWith (fun m r => m && !(pyStripStr (pyStr (getCell r col)) == val))
              subMask ds.rows)
    else .ok (subMask.map (fun _ => false))

/-- `get_skip_mask(condition_text, df)`: strip, drop a leading `if`, split into
`or`-groups, each group into `and`-clauses; conjunctions start all-true, the
disjunction starts all-false. -/
def getSkipMask (conditionText : String) (ds : Dataset) : Except String (List Bool) :=
  let t0 := pyStripStr conditionText
  let t := if strStartsWith (toLowerStr t0) "if" then pyStripStr (strDrop t0 2) else t0
  (splitKw "or" t).foldlM
    (fun mask g => do
      let sub ← (splitKw "and" g).foldlM (evalClauseVec ds) (ds.rows.map fun _ => true)
      pure (List.zipWith (fun a b => a || b) mask sub))
    (ds.rows.map fun _ => false)

/-- `expand_prefix(prefix, df_cols)`. -/
def expandStartsWith (tok : String) (dfCols : List String) : List String :=
  dfCols.filter (fun c => strStartsWith c tok)

/-- Lazy-regex match of `([A-Za-z0-9_]+?)(\d+)$` from the string start: the
smallest split point with a nonempty word-character head and a nonempty
all-digit tail; returns the head and the integer value of the tail. -/
def isWordChar (c : Char) : Bool := c.isDigit || c.isAlpha || c = '_'

def suffixSplit (s : String) : Option (String × Nat) :=
  let cs := s.data
  match (List.range' 1 (cs.length - 1)).find? (fun p =>
      (cs.take p).all isWordChar && !(cs.drop p).isEmpty && (cs.drop p).all Char.isDigit) with
  | some p => some (String.mk (cs.take p), digitsVal (cs.drop p))
  | none => none

/-- `expand_range(expr, df_cols)`: a `to`-range of same-stem numbered columns
enumerated inclusively and filtered to existing columns; otherwise the whole
expression as a literal column reference if it exists.  Splitting on `to`
into more than two pieces crashes the script (tuple unpacking). -/
def expandRange (expr : String) (dfCols : List String) : Except String (List String) :=
  let e := pyStripStr expr
  if isSubstr "to" e then
    match splitAllStr "to" e with
    | [s0, t0] =>
      match suffixSplit (pyStripStr s0), suffixSplit (pyStripStr t0) with
      | some pn, some pm =>
        if pn.1 = pm.1 then
          .ok (((List.range' pn.2 (pm.2 + 1 - pn.2)).map (fun i => pn.1 ++ natStr i)).filter
                (fun c => decide (c ∈ dfCols)))
        else .ok (if e ∈ dfCols then [e] else [])
      | _, _ => .ok (if e ∈ dfCols then [e] else [])
    | _ => .error "ValueError: too many values to unpack"
  else .ok (if e ∈ dfCols then [e] else [])

/-- Blankness used by the skip check: `isna() | (astype(str).str.strip() == "")`. -/
def isBlank (v : Value) : Bool := v == .vnull || pyStripStr (pyStr v) == ""

def mkRec (rid : Option String) (q ct issue : String) : ViolationRecord :=
  ⟨rid, q, ct, issue⟩

/-- Per-target-column body of the skip check (lines 103-127): a missing target
column yields one rule-level record; otherwise blank-but-should-answer rows
(blank and mask true) then answered-but-should-skip rows (present and mask
false), in dataset row order. -/
def skipColCheck (ds : Dataset) (mask : List Bool) (col : String) : List ViolationRecord :=
  if col ∈ ds.cols then
    ((ds.rows.zip mask).filter (fun p => isBlank (getCell p.1 col) && p.2)).map
      (fun p => mkRec (some p.1.rid) col "Skip" "Blank but should be answered")
    ++ ((ds.rows.zip mask).filter (fun p => !isBlank (getCell p.1 col) && !p.2)).map
      (fun p => mkRec (some p.1.rid) col "Skip" "Answered but should be skipped")
  else [mkRec none col "Skip" ("Skip condition references missing variable '" ++ col ++ "'")]

def idxOf (x : String) : List String → Nat
  | [] => 0
  | y :: ys => if y == x then 0 else idxOf x ys + 1

/-- Skip block of the main loop (lines 88-127): finds the skip condition,
splits it at `then`, evaluates the if-part with `get_skip_mask`, resolves the
target columns from the then-part, and runs `skipColCheck` on each; returns
the produced records together with the mask kept for the range check. -/
def skipBlock (checkTypes conditions : List String) (ds : Dataset) :
    Except String (List ViolationRecord × Option (List Bool)) :=
  if "skip" ∈ checkTypes then
    match conditions.get? (idxOf "skip" checkTypes) with
    | none => .error "IndexError: list index out of range"
    | some condition =>
      if isSubstr "then" (toLowerStr condition) then
        match splitFirstStr "then" condition with
        | none => .error "ValueError: not enough values to unpack"
        | some ab =>
          match getSkipMask ab.1 ds with
          | .error e => .error e
          | .ok mask =>
            let t := pyStripStr ab.2
            if t = "" then .error "IndexError: list index out of range"
            else
              let thenExpr := firstWordStr t
              let targetsE : Except String (List String) :=
                if isSubstr "to" ab.2 then expandRange ab.2 ds.cols
                else if strEndsWith thenExpr "_" then .ok (expandStartsWith thenExpr ds.cols)
                else .ok [thenExpr]
              targetsE.map (fun ts => ((ts.map (skipColCheck ds mask)).flatten, some mask))
      else .ok ([], none)
  else .ok ([], none)

/-- Bounds parsing of the range check: the condition must contain `-`, split
into exactly two float-parsable pieces; any failure is the caught exception
path. -/
def parseRangeBounds (condition : String) : Option (ℚ × ℚ) :=
  if isSubstr "-" condition then
    match splitAllStr "-" condition with
    | [a, b] =>
      match parseFloat a, parseFloat b with
      | some x, some y => some (x, y)
      | _, _ => none
    | _ => none
  else none

/-- `df[col].between(min, max)` on one cell: inclusive bounds, NaN false.
String cells raise instead (handled one level up). -/
def ratBetween (mn mx : ℚ) : Value → Bool
  | .vnum q => decide (mn ≤ q) && decide (q ≤ mx)
  | _ => false

def isVStr : Value → Bool
  | .vstr _ => true
  | _ => false

def invalidRangeRec (col condition : String) : ViolationRecord :=
  mkRec none col "Range" ("Invalid range condition (" ++ condition ++ ")")

/-- Per-column body of the range check (lines 133-148) with its try/except:
malformed bounds, or a pandas TypeError from comparing a string cell with a
float bound, produce the single rule-level record; otherwise applicable rows
outside the inclusive bounds (NaN counts as outside) are flagged. -/
def rangeCheckCol (condition : String) (effMask : List Bool) (ds : Dataset) (col : String) :
    List ViolationRecord :=
  match parseRangeBounds condition with
  | none => [invalidRangeRec col condition]
  | some b =>
    if ds.rows.any (fun r => isVStr (getCell r col)) then [invalidRangeRec col condition]
    else
      ((ds.rows.zip effMask).filter (fun p => !ratBetween b.1 b.2 (getCell p.1 col) && p.2)).map
        (fun p => mkRec (some p.1.rid) col "Range"
          ("Value out of range (" ++ pyFloatRepr b.1 ++ "-" ++ pyFloatRepr b.2 ++ ")"))

/-- Range block of the main loop (lines 130-148): effective mask is the skip
mask when one was computed, else all-true. -/
def rangeBlock (checkTypes conditions relatedCols : List String)
    (skipMask : Option (List Bool)) (ds : Dataset) : Except String (List ViolationRecord) :=
  if "range" ∈ checkTypes then
    match conditions.get? (idxOf "range" checkTypes) with
    | none => .error "IndexError: list index out of range"
    | some condition =>
      let eff := skipMask.getD (ds.rows.map fun _ => true)
      .ok ((relatedCols.map (rangeCheckCol condition eff ds)).flatten)
  else .ok []

/-- Straightliner block (lines 151-161): with more than one related column,
rows whose count of distinct non-null values across them is one
(`nunique(axis=1) == 1`). -/
def straightBlock (checkTypes relatedCols : List String) (ds : Dataset) : List ViolationRecord :=
  if "straightliner" ∈ checkTypes ∧ relatedCols.length > 1 then
    (ds.rows.filter (fun r =>
        ((relatedCols.map (getCell r)).filter (fun v => v ≠ .vnull)).dedup.length = 1)).map
      (fun r => mkRec (some r.rid) (joinSep "," relatedCols) "Straightliner"
        "Same response across all items")
  else []

/-- Per-column body of the missing check (lines 165-171): every row with a
null cell, no mask consulted. -/
def missingCheckCol (ds : Dataset) (col : String) : List ViolationRecord :=
  (ds.rows.filter (fun r => getCell r col == Value.vnull)).map
    (fun r => mkRec (some r.rid) col "Missing" "Value is missing")

def missingBlock (checkTypes relatedCols : List String) (ds : Dataset) : List ViolationRecord :=
  if "missing" ∈ checkTypes then (relatedCols.map (missingCheckCol ds)).flatten else []

def numOrZero : Value → ℚ
  | .vnum q => q
  | _ => 0

/-- Multi-select block (lines 174-186): per column, cells not equal to the
numbers 0 or 1 (NaN included); then rows whose `fillna(0)` sum across the
related columns is 0.  A string cell makes the pandas row sum raise a
TypeError (modelled as an error). -/
def multiBlock (checkTypes relatedCols : List String) (q : String) (ds : Dataset) :
    Except String (List ViolationRecord) :=
  if "multi-select" ∈ checkTypes then
    let perCol := (relatedCols.map (fun col =>
      (ds.rows.filter (fun r =>
          !(getCell r col == Value.vnum 0 || getCell r col == Value.vnum 1))).map
        (fun r => mkRec (some r.rid) col "Multi-Select" "Invalid value (not 0/1)"))).flatten
    if relatedCols.length > 0 then
      if ds.rows.any (fun r => relatedCols.any (fun c => isVStr (getCell r c))) then
        .error "TypeError: unsupported operand type(s) for +"
      else
        .ok (perCol ++ (ds.rows.filter (fun r =>
            ((relatedCols.map (fun c => numOrZero (getCell r c))).sum = (0 : ℚ)))).map
          (fun r => mkRec (some r.rid) q "Multi-Select" "No options selected"))
    else .ok perCol
  else .ok []

/-- Per-column body of the open-end junk check (lines 190-196): rows whose
`astype(str)` rendering is shorter than 3 characters; no mask consulted. -/
def openEndCheckCol (ds : Dataset) (col : String) : List ViolationRecord :=
  (ds.rows.filter (fun r => (pyStr (getCell r col)).length < 3)).map
    (fun r => mkRec (some r.rid) col "OpenEnd_Junk" "Open-end looks like junk/low-effort")

def openEndBlock (checkTypes relatedCols : List String) (ds : Dataset) : List ViolationRecord :=
  if "openend_junk" ∈ checkTypes then (relatedCols.map (openEndCheckCol ds)).flatten else []

/-- Duplicate block (lines 199-205): rows whose value in the column occurs in
at least two rows (`duplicated(keep=False)`; NaN equals NaN there). -/
def dupBlock (checkTypes relatedCols : List String) (ds : Dataset) : List ViolationRecord :=
  if "duplicate" ∈ checkTypes then
    (relatedCols.map (fun col =>
      (ds.rows.filter (fun r =>
          1 < (ds.rows.filter (fun r2 => getCell r2 col == getCell r col)).length)).map
        (fun r => mkRec (some r.rid) col "Duplicate" "Duplicate value found"))).flatten
  else []

/-- One iteration of the main validation loop (lines 80-205) for one rule
row: normalise the question token, check types and conditions, resolve the
related columns, then run the blocks in source order and concatenate their
records in append order. -/
def processRule (ds : Dataset) (rule : Rule) : Except String (List ViolationRecord) := do
  let q := pyStripStr rule.Question
  let checkTypes := (splitAllStr ";" rule.Check_Type).map (fun c => toLowerStr (pyStripStr c))
  let conditions := (splitAllStr ";" rule.Condition).map pyStripStr
  let relatedCols := if q ∈ ds.cols then [q] else expandStartsWith q ds.cols
  let sk ← skipBlock checkTypes conditions ds
  let rangeRecs ← rangeBlock checkTypes conditions relatedCols sk.2 ds
  let multiRecs ← multiBlock checkTypes relatedCols q ds
  pure (sk.1 ++ rangeRecs ++ straightBlock checkTypes relatedCols ds
    ++ missingBlock checkTypes relatedCols ds ++ multiRecs
    ++ openEndBlock checkTypes relatedCols ds ++ dupBlock checkTypes relatedCols ds)

/-- The whole run: every rule row in order, records concatenated; an
unhandled exception anywhere aborts the run. -/
def runPipeline (rules : List Rule) (ds : Dataset) : Except String (List ViolationRecord) :=
  rules.foldlM (fun acc r => (processRule ds r).map (acc ++ ·)) []

/-- Concrete dataset for the skip round trip: R1 has Q1=1 and Q2 missing,
R2 has Q1=2 and Q2=5. -/
def ds1 : Dataset :=
  ⟨["Q1", "Q2"],
   [⟨"R1", [("Q1", .vnum 1), ("Q2", .vnull)]⟩,
    ⟨"R2", [("Q1", .vnum 2), ("Q2", .vnum 5)]⟩]⟩

/-- One-respondent dataset with a single numeric column. -/
def ds3 : Dataset := ⟨["Q1"], [⟨"R1", [("Q1", .vnum 1)]⟩]⟩

/-- Dataset for the range check: R1 has Q=6, R2 has Q=3. -/
def ds6 : Dataset :=
  ⟨["Q"], [⟨"R1", [("Q", .vnum 6)]⟩, ⟨"R2", [("Q", .vnum 3)]⟩]⟩

/-- Dataset for the missing check under a skip rule: both respondents have
Q2 missing; R1 has Q1=2 and R2 has Q1=1, so under the skip condition
`if Q1=1 then Q2` exactly one of them is non-applicable under either reading
of the mask. -/
def ds7 : Dataset :=
  ⟨["Q1", "Q2"],
   [⟨"R1", [("Q1", .vnum 2), ("Q2", .vnull)]⟩,
    ⟨"R2", [("Q1", .vnum 1), ("Q2", .vnull)]⟩]⟩

/-- One-respondent dataset whose single cell is the text value "abc". -/
def ds9 : Dataset := ⟨["Q"], [⟨"R1", [("Q", .vstr "abc")]⟩]⟩

/-- One-respondent dataset whose single cell is missing. -/
def ds9n : Dataset := ⟨["Q"], [⟨"R1", [("Q", .vnull)]⟩]⟩

/-- Dataset for the open-end check: a 2-character answer, a missing answer,
and a 4-character answer. -/
def ds10 : Dataset :=
  ⟨["Q"], [⟨"R1", [("Q", .vstr "hi")]⟩, ⟨"R2", [("Q", .vnull)]⟩, ⟨"R3", [("Q", .vstr "fine")]⟩]⟩

/-- C1: for the rule `if Q1=1 then Q2` over ds1, the respondent with Q1=1 and
Q2 missing yields exactly one "Blank but should be answered" record for Q2,
the respondent with Q1=2 and Q2=5 yields exactly one "Answered but should be
skipped" record, and no other Skip records are produced. -/
theorem C1_skip_roundtrip :
    processRule ds1 ⟨"Q2", "Skip", "if Q1=1 then Q2"⟩ =
      .ok [mkRec (some "R1") "Q2" "Skip" "Blank but should be answered",
           mkRec (some "R2") "Q2" "Skip" "Answered but should be skipped"] := rfl

/-- C2 counterexample: the mask the skip block uses for its target columns is
exactly the evaluation of the if-clause (`[true, false]` on ds1), not its
elementwise negation (`[false, true]`): the respondent satisfying `Q1=1` is
flagged "Blank but should be answered", i.e. treated as expected to answer,
contradicting the claim that condition-holders are exempt. -/
theorem C2_counterexample :
    skipBlock ["skip"] ["if Q1=1 then Q2"] ds1 =
      .ok ([mkRec (some "R1") "Q2" "Skip" "Blank but should be answered",
            mkRec (some "R2") "Q2" "Skip" "Answered but should be skipped"], some [true, false]) ∧
    getSkipMask "if Q1=1 " ds1 = .ok [true, false] ∧
    [true, false] ≠ List.map (fun b => !b) [true, false] :=
  ⟨rfl, rfl, by decide⟩

/-- C2 amended: the applicability mask used for a Skip rule's target columns
is the evaluation of the if-clause itself (no negation): for any mask
produced by `getSkipMask`, a blank-but-should-be-answered record is emitted
for a respondent iff the cell is blank and the evaluated condition is true
for that respondent, and an answered-but-should-be-skipped record iff the
cell is present and the evaluated condition is false. -/
theorem C2_amended (ds : Dataset) (ifPart : String) (mask : List Bool) (col rid : String)
    (hm : getSkipMask ifPart ds = .ok mask) (hcol : col ∈ ds.cols) :
    (mkRec (some rid) col "Skip" "Blank but should be answered" ∈ skipColCheck ds mask col ↔
      ∃ p ∈ ds.rows.zip mask, p.1.rid = rid ∧ isBlank (getCell p.1 col) = true ∧ p.2 = true) ∧
    (mkRec (some rid) col "Skip" "Answered but should be skipped" ∈ skipColCheck ds mask col ↔
      ∃ p ∈ ds.rows.zip mask, p.1.rid = rid ∧ isBlank (getCell p.1 col) = false ∧ p.2 = false) := by
  unfold skipColCheck
  rw [if_pos hcol]
  constructor
  · constructor
    · intro hmem
      rcases List.mem_append.mp hmem with hmem | hmem
      · obtain ⟨p, hp, he⟩ := List.mem_map.mp hmem
        obtain ⟨hz, hpred⟩ := List.mem_filter.mp hp
        obtain ⟨hb, hm2⟩ := Bool.and_eq_true _ _ |>.mp hpred
        exact ⟨p, hz, (Option.some.injEq _ _).mp (congrArg ViolationRecord.RespondentID he),
          hb, hm2⟩
      · obtain ⟨p, hp, he⟩ := List.mem_map.mp hmem
        exact absurd (show ("Answered but should be skipped" : String) =
          "Blank but should be answered" from congrArg ViolationRecord.Issue he) (by decide)
    · rintro ⟨p, hp, hrid, hb, hm2⟩
      refine List.mem_append.mpr (Or.inl (List.mem_map.mpr ⟨p, List.mem_filter.mpr ⟨hp, ?_⟩, ?_⟩))
      · rw [hb, hm2]
        rfl
      · rw [hrid]
  · constructor
    · intro hmem
      rcases List.mem_append.mp hmem with hmem | hmem
      · obtain ⟨p, hp, he⟩ := List.mem_map.mp hmem
        exact absurd (show ("Blank but should be answered" : String) =
          "Answered but should be skipped" from congrArg ViolationRecord.Issue he) (by decide)
      · obtain ⟨p, hp, he⟩ := List.mem_map.mp hmem
        obtain ⟨hz, hpred⟩ := List.mem_filter.mp hp
        obtain ⟨hb, hm2⟩ := Bool.and_eq_true _ _ |>.mp hpred
        refine ⟨p, hz, (Option.some.injEq _ _).mp (congrArg ViolationRecord.RespondentID he),
          ?_, ?_⟩
        · simpa using hb
        · simpa using hm2
    · rintro ⟨p, hp, hrid, hb, hm2⟩
      refine List.mem_append.mpr (Or.inr (List.mem_map.mpr ⟨p, List.mem_filter.mpr ⟨hp, ?_⟩, ?_⟩))
      · rw [hb, hm2]
        rfl
      · rw [hrid]

/-- C2 witness: the amended theorem instantiated on ds1 with the mask
`[true, false]` actually computed by `getSkipMask "if Q1=1 "`. -/
theorem C2_witness :
    mkRec (some "R1") "Q2" "Skip" "Blank but should be answered" ∈
      skipColCheck ds1 [true, false] "Q2" :=
  (C2_amended ds1 "if Q1=1 " [true, false] "Q2" "R1" rfl (by decide)).1.mpr
    ⟨(⟨"R1", [("Q1", .vnum 1), ("Q2", .vnull)]⟩, true), by decide, rfl, by decide, rfl⟩

/-- C3 counterexample: the conjunction `Q1=1 and junk` contains the clause
`junk` which matches no comparator; the claim says the whole conjunction must
evaluate false for every respondent, but `get_skip_mask` silently skips the
clause and the conjunction evaluates true on ds3. -/
theorem C3_counterexample :
    getSkipMask "Q1=1 and junk" ds3 = .ok [true] := rfl

/-- C3 amended: a conjunction clause with no recognized comparator is
silently ignored — it leaves the running conjunction mask unchanged rather
than forcing it false (and no parse error is raised). -/
theorem C3_amended (ds : Dataset) (subMask : List Bool) (part : String)
    (h : firstOpIn (normPart part) = none) :
    evalClauseVec ds subMask part = .ok subMask := by
  simp only [evalClauseVec, h]

/-- C3 witness: the amended theorem applied to the comparator-free clause
`junk` on ds3. -/
theorem C3_witness : evalClauseVec ds3 [true] "junk" = .ok [true] :=
  C3_amended ds3 [true] "junk" rfl

/-- C4 counterexample: a numeric comparator whose literal token does not
parse as a number raises an unhandled ValueError (Python `float(val)`)
instead of evaluating the predicate to false. -/
theorem C4_counterexample :
    getSkipMask "Q1<abc" ds3 =
      .error "ValueError: could not convert string to float: 'abc'" := rfl

/-- C4 amended: under a numeric comparator, a respondent cell that does not
coerce to a number makes the predicate false without raising; but a literal
token that does not parse as a float aborts evaluation with a ValueError. -/
theorem C4_amended :
    (∀ (op : String) (x : ℚ) (v : Value), toNumeric v = none →
      numPred op x (toNumeric v) = false) ∧
    (∀ (ds : Dataset) (subMask : List Bool) (part op : String),
      firstOpIn (normPart part) = some op → op ∈ numOps →
      clauseCol op (normPart part) ∈ ds.cols →
      parseFloat (clauseVal op (normPart part)) = none →
      evalClauseVec ds subMask part =
        .error ("ValueError: could not convert string to float: '" ++
          clauseVal op (normPart part) ++ "'")) := by
  constructor
  · intro op x v h
    rw [h]
    rfl
  · intro ds subMask part op hop hnum hcol hpf
    simp only [evalClauseVec, hop]
    rw [if_pos hcol, if_pos hnum, hpf]

/-- C4 witness: the amended theorem at a non-numeric cell value and at the
clause `Q1<abc` on ds3. -/
theorem C4_witness :
    numPred "<" 5 (toNumeric (Value.vstr "xyz")) = false ∧
    evalClauseVec ds3 [true] "Q1<abc" =
      .error "ValueError: could not convert string to float: 'abc'" :=
  ⟨C4_amended.1 "<" 5 (Value.vstr "xyz") rfl,
   C4_amended.2 ds3 [true] "Q1<abc" "<" rfl (by decide) (by decide) rfl⟩

/-- C5: `expand_range "A1 to A3"` returns `[A1, A2, A3]` over columns
`{A1, A2, A3, A4}` and `[A1, A3]` over `{A1, A3}` (missing members of the
inclusive interval silently dropped), and in general every successfully
returned column exists in the dataset. -/
theorem C5_expand_range :
    expandRange "A1 to A3" ["A1", "A2", "A3", "A4"] = .ok ["A1", "A2", "A3"] ∧
    expandRange "A1 to A3" ["A1", "A3"] = .ok ["A1", "A3"] ∧
    (∀ (expr : String) (dfCols ls : List String),
      expandRange expr dfCols = .ok ls → ∀ c ∈ ls, c ∈ dfCols) := by
  refine ⟨rfl, rfl, ?_⟩
  intro expr dfCols ls h c hc
  simp only [expandRange] at h
  split at h
  · split at h
    · split at h
      · split at h
        · cases h
          simp only [List.mem_filter, decide_eq_true_eq] at hc
          exact hc.2
        · split at h <;> cases h
          · simp only [List.mem_singleton] at hc
            subst hc
            assumption
          · cases hc
      · split at h <;> cases h
        · simp only [List.mem_singleton] at hc
          subst hc
          assumption
        · cases hc
    · cases h
  · split at h <;> cases h
    · simp only [List.mem_singleton] at hc
      subst hc
      assumption
    · cases hc

/-- C5 witness: the membership clause of the theorem applied to the first
concrete expansion. -/
theorem C5_witness : "A2" ∈ ["A1", "A2", "A3", "A4"] :=
  C5_expand_range.2.2 "A1 to A3" ["A1", "A2", "A3", "A4"] ["A1", "A2", "A3"] rfl "A2" (by decide)

/-- C6: under the Range rule `1-5` on ds6, the respondent with value 6 yields
exactly one out-of-range record naming the bounds, the respondent with value
3 yields nothing, and the malformed condition `abc` yields exactly one
rule-level record with a null RespondentID and no respondent-level records. -/
theorem C6_range_check :
    processRule ds6 ⟨"Q", "Range", "1-5"⟩ =
      .ok [mkRec (some "R1") "Q" "Range" "Value out of range (1.0-5.0)"] ∧
    processRule ds6 ⟨"Q", "Range", "abc"⟩ =
      .ok [mkRec none "Q" "Range" "Invalid range condition (abc)"] := ⟨rfl, rfl⟩

/-- C7 counterexample: with the rule `skip;missing` and condition
`if Q1=1 then Q2` on ds7, both respondents (Q2 missing) are flagged Missing
although the computed mask is `[false, true]` — so a respondent who is
non-applicable (under either reading of the mask) is still flagged,
contradicting the claim that exempted respondents are never flagged. -/
theorem C7_counterexample :
    processRule ds7 ⟨"Q2", "skip;missing", "if Q1=1 then Q2;"⟩ =
      .ok [mkRec (some "R2") "Q2" "Skip" "Blank but should be answered",
           mkRec (some "R1") "Q2" "Missing" "Value is missing",
           mkRec (some "R2") "Q2" "Missing" "Value is missing"] := rfl

/-- C7 amended: the Missing check flags a respondent at a column iff the cell
is null/absent — no applicability mask is consulted, so respondents exempted
by a skip condition are flagged all the same. -/
theorem C7_amended (ds : Dataset) (col rid : String) :
    mkRec (some rid) col "Missing" "Value is missing" ∈ missingCheckCol ds col ↔
      ∃ r ∈ ds.rows, r.rid = rid ∧ getCell r col = Value.vnull := by
  constructor
  · intro hmem
    obtain ⟨r, hr, he⟩ := List.mem_map.mp hmem
    obtain ⟨hz, hn⟩ := List.mem_filter.mp hr
    exact ⟨r, hz, (Option.some.injEq _ _).mp (congrArg ViolationRecord.RespondentID he),
      beq_iff_eq.mp hn⟩
  · rintro ⟨r, hr, hrid, hn⟩
    refine List.mem_map.mpr ⟨r, List.mem_filter.mpr ⟨hr, ?_⟩, ?_⟩
    · rw [hn]
      rfl
    · rw [hrid]

/-- C7 witness: the amended theorem applied on ds7 to the respondent with
Q1=2 (exempt from Q2 under the code's mask) and a missing Q2. -/
theorem C7_witness :
    mkRec (some "R1") "Q2" "Missing" "Value is missing" ∈ missingCheckCol ds7 "Q2" :=
  (C7_amended ds7 "Q2" "R1").mpr
    ⟨⟨"R1", [("Q1", .vnum 2), ("Q2", .vnull)]⟩, by decide, rfl, rfl⟩

/-- C8: the pipeline is a pure function of the rule list and dataset, so two
runs on identical inputs produce identical (value-equal, order-equal)
violation sequences. -/
theorem C8_pipeline_deterministic (rules rules2 : List Rule) (ds ds2 : Dataset)
    (h1 : rules = rules2) (h2 : ds = ds2) :
    runPipeline rules ds = runPipeline rules2 ds2 := by
  rw [h1, h2]

/-- C8 witness: two runs of the pipeline on the concrete skip scenario. -/
theorem C8_witness :
    runPipeline [⟨"Q2", "Skip", "if Q1=1 then Q2"⟩] ds1 =
      runPipeline [⟨"Q2", "Skip", "if Q1=1 then Q2"⟩] ds1 :=
  C8_pipeline_deterministic _ _ _ _ rfl rfl

/-- C9 counterexample: on ds9 the sole respondent's value at Q is the text
"abc" (non-numeric), yet the Range rule `1-5` produces no respondent-level
out-of-range record at all — only the rule-level invalid-condition record
(null RespondentID) from the caught pandas comparison error. -/
theorem C9_counterexample :
    processRule ds9 ⟨"Q", "Range", "1-5"⟩ = .ok [invalidRangeRec "Q" "1-5"] ∧
    (invalidRangeRec "Q" "1-5").RespondentID = none := ⟨rfl, rfl⟩

/-- C9 amended: with well-formed bounds, a string-valued cell anywhere in the
column degrades the whole column's check to the single rule-level
invalid-condition record; when the column has no string cells, every
applicable respondent whose cell is null/absent is flagged out of range. -/
theorem C9_amended (cond : String) (b : ℚ × ℚ) (ds : Dataset) (col : String)
    (mask : List Bool) (hb : parseRangeBounds cond = some b) :
    ((∃ r ∈ ds.rows, isVStr (getCell r col) = true) →
      rangeCheckCol cond mask ds col = [invalidRangeRec col cond]) ∧
    ((∀ r ∈ ds.rows, isVStr (getCell r col) = false) →
      ∀ p ∈ ds.rows.zip mask, getCell p.1 col = Value.vnull → p.2 = true →
        mkRec (some p.1.rid) col "Range"
            ("Value out of range (" ++ pyFloatRepr b.1 ++ "-" ++ pyFloatRepr b.2 ++ ")") ∈
          rangeCheckCol cond mask ds col) := by
  unfold rangeCheckCol
  split
  · rename_i heq
    rw [hb] at heq
    cases heq
  · rename_i b2 heq
    rw [hb] at heq
    obtain rfl : b2 = b := (Option.some.injEq _ _).mp heq.symm
    constructor
    · intro hex
      rw [if_pos]
      rw [List.any_eq_true]
      obtain ⟨r, hr, hs⟩ := hex
      exact ⟨r, hr, hs⟩
    · intro hall p hp hnull hm
      rw [if_neg]
      · refine List.mem_map.mpr ⟨p, List.mem_filter.mpr ⟨hp, ?_⟩, rfl⟩
        rw [hnull, hm]
        rfl
      · rw [List.any_eq_true]
        rintro ⟨r, hr, hs⟩
        rw [hall r hr] at hs
        cases hs

/-- C9 witness: the amended theorem applied on ds9n, whose sole respondent
has a missing cell and is applicable: the null value is flagged out of
range. -/
theorem C9_witness :
    mkRec (some "R1") "Q" "Range" "Value out of range (1.0-5.0)" ∈
      rangeCheckCol "1-5" [true] ds9n "Q" :=
  (C9_amended "1-5" (1, 5) ds9n "Q" [true] (by decide)).2 (by decide)
    (⟨"R1", [("Q", .vnull)]⟩, true) (by decide) rfl rfl

/-- C10: the open-end junk check flags a respondent at a column exactly when
the `astype(str)` rendering of the cell is shorter than 3 characters (no
applicability mask appears in the check); a null cell renders as "nan" of
length exactly 3 and is therefore never flagged. -/
theorem C10_openend :
    (∀ (ds : Dataset) (col rid : String),
      mkRec (some rid) col "OpenEnd_Junk" "Open-end looks like junk/low-effort" ∈
          openEndCheckCol ds col ↔
        ∃ r ∈ ds.rows, r.rid = rid ∧ (pyStr (getCell r col)).length < 3) ∧
    (pyStr Value.vnull).length = 3 := by
  refine ⟨?_, rfl⟩
  intro ds col rid
  constructor
  · intro hmem
    obtain ⟨r, hr, he⟩ := List.mem_map.mp hmem
    obtain ⟨hz, hl⟩ := List.mem_filter.mp hr
    exact ⟨r, hz, (Option.some.injEq _ _).mp (congrArg ViolationRecord.RespondentID he),
      of_decide_eq_true hl⟩
  · rintro ⟨r, hr, hrid, hl⟩
    refine List.mem_map.mpr ⟨r, List.mem_filter.mpr ⟨hr, decide_eq_true hl⟩, ?_⟩
    rw [hrid]

/-- C10 witness: the theorem applied on ds10 to the respondent whose answer
"hi" has length 2. -/
theorem C10_witness :
    mkRec (some "R1") "Q" "OpenEnd_Junk" "Open-end looks like junk/low-effort" ∈
      openEndCheckCol ds10 "Q" :=
  (C10_openend.1 ds10 "Q" "R1").mpr
    ⟨⟨"R1", [("Q", .vstr "hi")]⟩, by decide, rfl, by decide⟩

end CheckDV
